import Mathlib

/-!
Shallow embedding of `src/scripts/analyze_xlsx_deep.py`: a single pass over
spreadsheet rows that classifies each row (Header / Job / Component / Other),
threads a `(current_customer, current_mark, current_job)` context, groups
component records per job, and then tallies purchase-order fulfillment and
stock-sufficiency statistics.

Cells are modelled as `Option` values (`none` = empty cell / Python `None`);
numeric quantities are `Int`.  Python sets are modelled as duplicate-free
lists in insertion order, `Counter` as an association list, and
`defaultdict(list)` as an association list from job to its component list.
-/

/-- One spreadsheet row: the 22 named fields read in the row loop
(lines 31-54 of the script).  Field names follow the source dictionary keys. -/
structure Row where
  Text48 : Option String := none
  Auto_Date : Option String := none
  SALES_ORDER : Option String := none
  MARK_INFO : Option String := none
  SALESPERSON : Option String := none
  CUSTOMER : Option String := none
  CODE_SORT : Option String := none
  JOB : Option String := none
  PART_CUSTOMER : Option String := none
  Text72 : Option String := none
  COMPONENT : Option String := none
  DESCRIPTION : Option String := none
  UM : Option String := none
  QTY_COMMITTED : Option Int := none
  QTY_ISSUED : Option Int := none
  QTY_ONHAND : Option Int := none
  PURCHASE_ORDER : Option String := none
  VENDOR : Option String := none
  QTY_ORDER : Option Int := none
  QTY_RECEIVED : Option Int := none
  DATE_DUE_LINE : Option String := none
  DATE_LAST_RECEIVED : Option String := none
  deriving Repr, DecidableEq

/-- The four row classifications of the if/elif chain (lines 56-102). -/
inductive RowClass where
  | Header
  | Job
  | Component
  | Other
  deriving Repr, DecidableEq

/-- Classification of a row by which fields are populated, with the fixed
precedence of the source's if/elif chain: MARK_INFO and CUSTOMER both present
gives Header; else JOB present gives Job; else COMPONENT present gives
Component; else Other. -/
def classify (r : Row) : RowClass :=
  if r.MARK_INFO.isSome ∧ r.CUSTOMER.isSome then RowClass.Header
  else if r.JOB.isSome then RowClass.Job
  else if r.COMPONENT.isSome then RowClass.Component
  else RowClass.Other

/-- Python `set.add`: append the element unless already present. -/
def setAdd (s : List String) (x : String) : List String :=
  if x ∈ s then s else s ++ [x]

/-- Python `Counter[k] += 1` on an association list. -/
def counterAdd : List (String × Nat) → String → List (String × Nat)
  | [], k => [(k, 1)]
  | (k', n) :: rest, k =>
      if k' = k then (k, n + 1) :: rest else (k', n) :: counterAdd rest k

/-- The per-component record appended to `job_components[current_job]`
(lines 87-100).  `qty_ordered`/`qty_received` are stored raw (possibly
`none`), exactly as the source stores the uncoerced cell values. -/
structure ComponentRecord where
  component : String
  description : Option String := none
  qty_committed : Int := 0
  qty_issued : Int := 0
  qty_onhand : Int := 0
  has_po : Bool := false
  po : Option String := none
  vendor : Option String := none
  qty_ordered : Option Int := none
  qty_received : Option Int := none
  date_due : Option String := none
  shortage : Int := 0
  deriving Repr, DecidableEq

/-- `shortage = qty_committed - qty_onhand if qty_committed > qty_onhand
else 0` (line 85). -/
def shortage (qty_committed qty_onhand : Int) : Int :=
  if qty_committed > qty_onhand then qty_committed - qty_onhand else 0

/-- Build the component record from a row (lines 81-100): quantities default
to 0 via `or 0`, `has_po` is `PURCHASE_ORDER is not None`, and the ordered /
received quantities are kept raw. -/
def mkComponentRecord (r : Row) : ComponentRecord :=
  let qty_committed := r.QTY_COMMITTED.getD 0
  let qty_onhand := r.QTY_ONHAND.getD 0
  let qty_issued := r.QTY_ISSUED.getD 0
  { component := r.COMPONENT.getD ""
    description := r.DESCRIPTION
    qty_committed := qty_committed
    qty_issued := qty_issued
    qty_onhand := qty_onhand
    has_po := r.PURCHASE_ORDER.isSome
    po := r.PURCHASE_ORDER
    vendor := r.VENDOR
    qty_ordered := r.QTY_ORDER
    qty_received := r.QTY_RECEIVED
    date_due := r.DATE_DUE_LINE
    shortage := shortage qty_committed qty_onhand }

/-- `job_components[k].append(v)` on a `defaultdict(list)` kept in first-seen
key order. -/
def jcAppend : List (String × List ComponentRecord) → String → ComponentRecord →
    List (String × List ComponentRecord)
  | [], k, v => [(k, [v])]
  | (k', l) :: rest, k, v =>
      if k' = k then (k, l ++ [v]) :: rest else (k', l) :: jcAppend rest k v

/-- The mutable state of the row loop: the row-type counters, the global
unique-value sets, the CODE_SORT counter, the per-job component lists, and
the `(current_customer, current_job, current_mark)` context (lines 11-28). -/
structure AnalyzerState where
  customer_rows : Nat := 0
  job_rows : Nat := 0
  component_rows : Nat := 0
  other_rows : Nat := 0
  jobs : List String := []
  customers : List String := []
  sales_orders : List String := []
  components : List String := []
  vendors : List String := []
  po_numbers : List String := []
  code_sorts : List (String × Nat) := []
  job_components : List (String × List ComponentRecord) := []
  current_customer : Option String := none
  current_job : Option String := none
  current_mark : Option String := none
  deriving Repr, DecidableEq

/-- The fresh state before the pass. -/
def initState : AnalyzerState := {}

/-- One iteration of the row loop (lines 56-102): the if/elif chain that
classifies the row, updates the context and the unique-value sets, and
appends a component record under `current_job` when one exists. -/
def processRow (st : AnalyzerState) (r : Row) : AnalyzerState :=
  if r.MARK_INFO.isSome ∧ r.CUSTOMER.isSome then
    let st1 := { st with
      customer_rows := st.customer_rows + 1
      current_customer := r.CUSTOMER
      current_mark := r.MARK_INFO
      customers := setAdd st.customers (r.CUSTOMER.getD "") }
    let st2 := if r.SALES_ORDER.isSome then
        { st1 with sales_orders := setAdd st1.sales_orders (r.SALES_ORDER.getD "") }
      else st1
    if r.CODE_SORT.isSome then
      { st2 with code_sorts := counterAdd st2.code_sorts (r.CODE_SORT.getD "") }
    else st2
  else if r.JOB.isSome then
    { st with
      job_rows := st.job_rows + 1
      current_job := r.JOB
      jobs := setAdd st.jobs (r.JOB.getD "") }
  else if r.COMPONENT.isSome then
    let st1 := { st with
      component_rows := st.component_rows + 1
      components := setAdd st.components (r.COMPONENT.getD "") }
    let st2 := if r.VENDOR.isSome then
        { st1 with vendors := setAdd st1.vendors (r.VENDOR.getD "") }
      else st1
    let st3 := if r.PURCHASE_ORDER.isSome then
        { st2 with po_numbers := setAdd st2.po_numbers (r.PURCHASE_ORDER.getD "") }
      else st2
    match st.current_job with
    | some j =>
        { st3 with job_components := jcAppend st3.job_components j (mkComponentRecord r) }
    | none => st3
  else
    { st with other_rows := st.other_rows + 1 }

/-- The full pass over the sheet's rows from the fresh state. -/
def runPass (rows : List Row) : AnalyzerState :=
  rows.foldl processRow initState

/-- The three purchase-order fulfillment buckets (lines 147-152). -/
inductive POBucket where
  | fully_received
  | partially_received
  | not_received
  deriving Repr, DecidableEq

/-- The bucket assigned by the conditional chain of lines 147-152:
fully when `qty_rec >= qty_ord and qty_ord > 0`, else partially when
`qty_rec > 0`, else not received. -/
def poBucket (qty_ord qty_rec : Int) : POBucket :=
  if qty_rec ≥ qty_ord ∧ qty_ord > 0 then POBucket.fully_received
  else if qty_rec > 0 then POBucket.partially_received
  else POBucket.not_received

/-- Counters of the purchase-order analysis (lines 135-139). -/
structure POStats where
  total_components_with_po : Nat := 0
  total_components_stock : Nat := 0
  po_received_complete : Nat := 0
  po_partially_received : Nat := 0
  po_not_received : Nat := 0
  deriving Repr, DecidableEq

/-- One step of the purchase-order tally loop (lines 142-154): with a PO,
coerce ordered/received with `or 0` and bump the matching bucket counter;
without a PO the source adds 0 to `total_components_stock`. -/
def poAnalyzeComp (s : POStats) (c : ComponentRecord) : POStats :=
  if c.has_po then
    let qty_ord := c.qty_ordered.getD 0
    let qty_rec := c.qty_received.getD 0
    let s1 := { s with total_components_with_po := s.total_components_with_po + 1 }
    if qty_rec ≥ qty_ord ∧ qty_ord > 0 then
      { s1 with po_received_complete := s1.po_received_complete + 1 }
    else if qty_rec > 0 then
      { s1 with po_partially_received := s1.po_partially_received + 1 }
    else
      { s1 with po_not_received := s1.po_not_received + 1 }
  else
    { s with total_components_stock := s.total_components_stock + 0 }

/-- The purchase-order analysis loop over `job_components` (lines 141-154). -/
def poAnalyze (jc : List (String × List ComponentRecord)) : POStats :=
  jc.foldl (fun s p => p.2.foldl poAnalyzeComp s) {}

/-- Counters of the stock-availability analysis (lines 163-164). -/
structure StockStats where
  stock_sufficient : Nat := 0
  stock_shortage : Nat := 0
  deriving Repr, DecidableEq

/-- One step of the stock loop (lines 166-171): stock items (no PO) are
sufficient when `qty_onhand >= qty_committed`, otherwise short. -/
def stockAnalyzeComp (s : StockStats) (c : ComponentRecord) : StockStats :=
  if c.has_po then s
  else if c.qty_onhand ≥ c.qty_committed then
    { s with stock_sufficient := s.stock_sufficient + 1 }
  else
    { s with stock_shortage := s.stock_shortage + 1 }

/-- The stock-availability loop over `job_components` (lines 165-171). -/
def stockAnalyze (jc : List (String × List ComponentRecord)) : StockStats :=
  jc.foldl (fun s p => p.2.foldl stockAnalyzeComp s) {}

/-- Number of stock (no-PO) records in one component list. -/
def countStockOf (l : List ComponentRecord) : Nat :=
  (l.filter (fun c => !c.has_po)).length

/-- Number of stock (no-PO) records across all jobs. -/
def countStock (jc : List (String × List ComponentRecord)) : Nat :=
  (jc.map (fun p => countStockOf p.2)).sum

/-- A concrete header row (mark and customer populated) that also carries a
JOB value, a sales order and a code sort. -/
def headerRowEx : Row :=
  { MARK_INFO := some "M1", CUSTOMER := some "ACME", JOB := some "J1",
    SALES_ORDER := some "SO1", CODE_SORT := some "G" }

/-- A concrete component row with a vendor and a purchase order. -/
def compRowEx : Row :=
  { COMPONENT := some "C1", VENDOR := some "V1", PURCHASE_ORDER := some "PO77",
    QTY_COMMITTED := some 5, QTY_ONHAND := some 2 }

/-- A concrete analyzer state whose context has a current job. -/
def stateWithJobEx : AnalyzerState :=
  { current_job := some "J100", job_components := [("J100", [])] }

/-- A concrete component record with a PO and absent ordered/received
quantities. -/
def compRecEx : ComponentRecord :=
  { component := "C9", has_po := true, qty_ordered := none, qty_received := none }

theorem processRow_current_customer (st : AnalyzerState) (r : Row) :
    (processRow st r).current_customer =
      if classify r = RowClass.Header then r.CUSTOMER else st.current_customer := by
  unfold processRow classify
  split_ifs <;> (try rfl) <;> (cases hj : st.current_job <;> simp_all)

theorem processRow_current_mark (st : AnalyzerState) (r : Row) :
    (processRow st r).current_mark =
      if classify r = RowClass.Header then r.MARK_INFO else st.current_mark := by
  unfold processRow classify
  split_ifs <;> (try rfl) <;> (cases hj : st.current_job <;> simp_all)

theorem processRow_current_job (st : AnalyzerState) (r : Row) :
    (processRow st r).current_job =
      if classify r = RowClass.Job then r.JOB else st.current_job := by
  unfold processRow classify
  split_ifs <;> (try rfl) <;> (cases hj : st.current_job <;> simp_all)

theorem processRow_job_components (st : AnalyzerState) (r : Row) :
    (processRow st r).job_components =
      if classify r = RowClass.Component then
        (match st.current_job with
          | some j => jcAppend st.job_components j (mkComponentRecord r)
          | none => st.job_components)
      else st.job_components := by
  unfold processRow classify
  split_ifs <;> (try rfl) <;> (cases hj : st.current_job <;> simp_all)

theorem processRow_customers (st : AnalyzerState) (r : Row) :
    (processRow st r).customers =
      if classify r = RowClass.Header then setAdd st.customers (r.CUSTOMER.getD "")
      else st.customers := by
  unfold processRow classify
  split_ifs <;> (try rfl) <;> (cases hj : st.current_job <;> simp_all)

theorem processRow_sales_orders (st : AnalyzerState) (r : Row) :
    (processRow st r).sales_orders =
      if classify r = RowClass.Header ∧ r.SALES_ORDER.isSome then
        setAdd st.sales_orders (r.SALES_ORDER.getD "")
      else st.sales_orders := by
  unfold processRow classify
  split_ifs <;> (try rfl) <;> (cases hj : st.current_job <;> simp_all)

theorem processRow_jobs (st : AnalyzerState) (r : Row) :
    (processRow st r).jobs =
      if classify r = RowClass.Job then setAdd st.jobs (r.JOB.getD "")
      else st.jobs := by
  unfold processRow classify
  split_ifs <;> (try rfl) <;> (cases hj : st.current_job <;> simp_all)

theorem processRow_components (st : AnalyzerState) (r : Row) :
    (processRow st r).components =
      if classify r = RowClass.Component then setAdd st.components (r.COMPONENT.getD "")
      else st.components := by
  unfold processRow classify
  split_ifs <;> (try rfl) <;> (cases hj : st.current_job <;> simp_all)

theorem processRow_vendors (st : AnalyzerState) (r : Row) :
    (processRow st r).vendors =
      if classify r = RowClass.Component ∧ r.VENDOR.isSome then
        setAdd st.vendors (r.VENDOR.getD "")
      else st.vendors := by
  unfold processRow classify
  split_ifs <;> (try rfl) <;> (cases hj : st.current_job <;> simp_all)

theorem processRow_po_numbers (st : AnalyzerState) (r : Row) :
    (processRow st r).po_numbers =
      if classify r = RowClass.Component ∧ r.PURCHASE_ORDER.isSome then
        setAdd st.po_numbers (r.PURCHASE_ORDER.getD "")
      else st.po_numbers := by
  unfold processRow classify
  split_ifs <;> (try rfl) <;> (cases hj : st.current_job <;> simp_all)

/-- C2: for every (ordered, received) pair of a component record with a
purchase order, the PO tally assigns exactly one bucket of
{fully_received, partially_received, not_received}: fully when
received >= ordered and ordered > 0, else partially when received > 0, else
not received; and (10,10) is fully, (10,4) partially, (10,0) and (0,0)
not received. -/
theorem C2_po_bucket_total :
    (∀ qty_ord qty_rec : Int,
      (poBucket qty_ord qty_rec = POBucket.fully_received ↔
        qty_rec ≥ qty_ord ∧ qty_ord > 0) ∧
      (poBucket qty_ord qty_rec = POBucket.partially_received ↔
        ¬(qty_rec ≥ qty_ord ∧ qty_ord > 0) ∧ qty_rec > 0) ∧
      (poBucket qty_ord qty_rec = POBucket.not_received ↔
        ¬(qty_rec ≥ qty_ord ∧ qty_ord > 0) ∧ ¬qty_rec > 0)) ∧
    (∀ (s : POStats) (c : ComponentRecord),
      (poAnalyzeComp s c).po_received_complete = s.po_received_complete +
        (if c.has_po = true ∧ poBucket (c.qty_ordered.getD 0) (c.qty_received.getD 0) =
            POBucket.fully_received then 1 else 0) ∧
      (poAnalyzeComp s c).po_partially_received = s.po_partially_received +
        (if c.has_po = true ∧ poBucket (c.qty_ordered.getD 0) (c.qty_received.getD 0) =
            POBucket.partially_received then 1 else 0) ∧
      (poAnalyzeComp s c).po_not_received = s.po_not_received +
        (if c.has_po = true ∧ poBucket (c.qty_ordered.getD 0) (c.qty_received.getD 0) =
            POBucket.not_received then 1 else 0)) ∧
    poBucket 10 10 = POBucket.fully_received ∧
    poBucket 10 4 = POBucket.partially_received ∧
    poBucket 10 0 = POBucket.not_received ∧
    poBucket 0 0 = POBucket.not_received := by
  refine ⟨?_, ?_, by decide, by decide, by decide, by decide⟩
  · intro qty_ord qty_rec
    unfold poBucket
    split_ifs <;> simp_all
  · intro s c
    simp only [poAnalyzeComp, poBucket]
    by_cases hpo : c.has_po <;> split_ifs <;> simp_all

/-- C3: the shortage of a component record equals
max(committed - onhand, 0); in particular shortage 10 4 = 6,
shortage 3 3 = 0, shortage 0 5 = 0. -/
theorem C3_shortage_max :
    (∀ qty_committed qty_onhand : Int,
      shortage qty_committed qty_onhand = max (qty_committed - qty_onhand) 0) ∧
    (∀ r : Row, (mkComponentRecord r).shortage =
      max (r.QTY_COMMITTED.getD 0 - r.QTY_ONHAND.getD 0) 0) ∧
    shortage 10 4 = 6 ∧ shortage 3 3 = 0 ∧ shortage 0 5 = 0 := by
  have h : ∀ a b : Int, shortage a b = max (a - b) 0 := by
    intro a b
    simp only [shortage, max_def]
    split_ifs <;> omega
  exact ⟨h, fun r => by simp [mkComponentRecord, h], by decide, by decide, by decide⟩

/-- C4: every row gets exactly one classification under the fixed precedence
Header (mark and customer present), else Job (job present), else Component
(component present), else Other; a malformed/blank row falls through to
Other with no error. -/
theorem C4_classification_partition (r : Row) :
    (classify r = RowClass.Header ↔ r.MARK_INFO.isSome ∧ r.CUSTOMER.isSome) ∧
    (classify r = RowClass.Job ↔
      ¬(r.MARK_INFO.isSome ∧ r.CUSTOMER.isSome) ∧ r.JOB.isSome) ∧
    (classify r = RowClass.Component ↔
      ¬(r.MARK_INFO.isSome ∧ r.CUSTOMER.isSome) ∧ ¬r.JOB.isSome ∧ r.COMPONENT.isSome) ∧
    (classify r = RowClass.Other ↔
      ¬(r.MARK_INFO.isSome ∧ r.CUSTOMER.isSome) ∧ ¬r.JOB.isSome ∧ ¬r.COMPONENT.isSome) := by
  unfold classify
  split_ifs <;> simp_all

/-- C1 counterexample: a row classified Header that carries a non-empty JOB
field does NOT add that value to the jobs set — after processing
`headerRowEx` (JOB = "J1") from the fresh state, the jobs set is still
empty, refuting the claim that the unique-value sets are updated from
whatever fields are present regardless of classification branch. -/
theorem C1_counterexample :
    classify headerRowEx = RowClass.Header ∧
    headerRowEx.JOB = some "J1" ∧
    (processRow initState headerRowEx).jobs = [] := by
  refine ⟨by decide, by decide, by decide⟩

/-- C1 amended: each global unique-value set is updated only inside the
row's own classification branch — Header rows update customers (and
sales orders when present), Job rows update jobs, Component rows update
components (and vendors / PO numbers when present); outside its branch
each set is left unchanged. -/
theorem C1_branch_local_set_updates (st : AnalyzerState) (r : Row) :
    ((processRow st r).customers =
      if classify r = RowClass.Header then setAdd st.customers (r.CUSTOMER.getD "")
      else st.customers) ∧
    ((processRow st r).sales_orders =
      if classify r = RowClass.Header ∧ r.SALES_ORDER.isSome then
        setAdd st.sales_orders (r.SALES_ORDER.getD "")
      else st.sales_orders) ∧
    ((processRow st r).jobs =
      if classify r = RowClass.Job then setAdd st.jobs (r.JOB.getD "")
      else st.jobs) ∧
    ((processRow st r).components =
      if classify r = RowClass.Component then setAdd st.components (r.COMPONENT.getD "")
      else st.components) ∧
    ((processRow st r).vendors =
      if classify r = RowClass.Component ∧ r.VENDOR.isSome then
        setAdd st.vendors (r.VENDOR.getD "")
      else st.vendors) ∧
    ((processRow st r).po_numbers =
      if classify r = RowClass.Component ∧ r.PURCHASE_ORDER.isSome then
        setAdd st.po_numbers (r.PURCHASE_ORDER.getD "")
      else st.po_numbers) :=
  ⟨processRow_customers st r, processRow_sales_orders st r, processRow_jobs st r,
   processRow_components st r, processRow_vendors st r, processRow_po_numbers st r⟩

/-- C5: a row with both mark and customer present is classified Header, and
right after it is processed the context's current_customer and current_mark
equal that row's values; its sales order and code sort are recorded when
present. -/
theorem C5_header_row_effects (st : AnalyzerState) (r : Row)
    (hm : r.MARK_INFO.isSome) (hc : r.CUSTOMER.isSome) :
    classify r = RowClass.Header ∧
    (processRow st r).current_customer = r.CUSTOMER ∧
    (processRow st r).current_mark = r.MARK_INFO ∧
    (r.SALES_ORDER.isSome →
      (processRow st r).sales_orders = setAdd st.sales_orders (r.SALES_ORDER.getD "")) ∧
    (r.CODE_SORT.isSome →
      (processRow st r).code_sorts = counterAdd st.code_sorts (r.CODE_SORT.getD "")) := by
  unfold processRow classify
  split_ifs <;> simp_all

/-- Witness for C5 at the concrete header row `headerRowEx` from the fresh
state. -/
theorem C5_header_row_effects_witness :
    headerRowEx.MARK_INFO.isSome = true ∧ headerRowEx.CUSTOMER.isSome = true ∧
    (classify headerRowEx = RowClass.Header ∧
     (processRow initState headerRowEx).current_customer = headerRowEx.CUSTOMER ∧
     (processRow initState headerRowEx).current_mark = headerRowEx.MARK_INFO ∧
     (headerRowEx.SALES_ORDER.isSome →
       (processRow initState headerRowEx).sales_orders =
         setAdd initState.sales_orders (headerRowEx.SALES_ORDER.getD "")) ∧
     (headerRowEx.CODE_SORT.isSome →
       (processRow initState headerRowEx).code_sorts =
         counterAdd initState.code_sorts (headerRowEx.CODE_SORT.getD ""))) :=
  ⟨by decide, by decide, C5_header_row_effects initState headerRowEx (by decide) (by decide)⟩

/-- C7: processing a row classified Component or Other leaves the whole
context (current_customer, current_mark, current_job) unchanged. -/
theorem C7_component_other_context_frame (st : AnalyzerState) (r : Row)
    (h : classify r = RowClass.Component ∨ classify r = RowClass.Other) :
    (processRow st r).current_customer = st.current_customer ∧
    (processRow st r).current_mark = st.current_mark ∧
    (processRow st r).current_job = st.current_job := by
  rw [processRow_current_customer, processRow_current_mark, processRow_current_job]
  rcases h with h | h <;> rw [h] <;> simp

/-- Witness for C7 at the concrete component row `compRowEx` from a state
with a current job. -/
theorem C7_component_other_context_frame_witness :
    (classify compRowEx = RowClass.Component ∨ classify compRowEx = RowClass.Other) ∧
    ((processRow stateWithJobEx compRowEx).current_customer = stateWithJobEx.current_customer ∧
     (processRow stateWithJobEx compRowEx).current_mark = stateWithJobEx.current_mark ∧
     (processRow stateWithJobEx compRowEx).current_job = stateWithJobEx.current_job) :=
  ⟨Or.inl (by decide),
   C7_component_other_context_frame stateWithJobEx compRowEx (Or.inl (by decide))⟩

theorem foldl_processRow_no_job (rows : List Row) :
    ∀ st : AnalyzerState, (∀ x ∈ rows, classify x ≠ RowClass.Job) →
      st.current_job = none → (rows.foldl processRow st).current_job = none := by
  induction rows with
  | nil => intro st _ h; simpa using h
  | cons r rs ih =>
      intro st hall h
      rw [List.foldl_cons]
      refine ih _ (fun x hx => hall x (List.mem_cons_of_mem r hx)) ?_
      rw [processRow_current_job, if_neg (hall r (List.mem_cons_self r rs))]
      exact h

/-- C6: a component row processed while no current job exists is appended to
no job's component list, yet its component, vendor and PO values are still
added to the global unique-value sets; and current_job stays `none` as long
as no row classifies as Job. -/
theorem C6_orphan_component_rows :
    (∀ (st : AnalyzerState) (r : Row),
      st.current_job = none → classify r = RowClass.Component →
      (processRow st r).job_components = st.job_components ∧
      (processRow st r).components = setAdd st.components (r.COMPONENT.getD "") ∧
      (r.VENDOR.isSome →
        (processRow st r).vendors = setAdd st.vendors (r.VENDOR.getD "")) ∧
      (r.PURCHASE_ORDER.isSome →
        (processRow st r).po_numbers = setAdd st.po_numbers (r.PURCHASE_ORDER.getD ""))) ∧
    (∀ rows : List Row, (∀ x ∈ rows, classify x ≠ RowClass.Job) →
      (runPass rows).current_job = none) := by
  constructor
  · intro st r hj hc
    refine ⟨?_, ?_, fun hv => ?_, fun hp => ?_⟩
    · rw [processRow_job_components, if_pos hc, hj]
    · rw [processRow_components, if_pos hc]
    · rw [processRow_vendors, if_pos ⟨hc, hv⟩]
    · rw [processRow_po_numbers, if_pos ⟨hc, hp⟩]
  · intro rows hall
    exact foldl_processRow_no_job rows initState hall rfl

/-- Witness for C6 at the concrete component row `compRowEx` from the fresh
(jobless) state. -/
theorem C6_orphan_component_rows_witness :
    (initState.current_job = none ∧ classify compRowEx = RowClass.Component) ∧
    ((processRow initState compRowEx).job_components = initState.job_components ∧
     (processRow initState compRowEx).components =
       setAdd initState.components (compRowEx.COMPONENT.getD "") ∧
     (compRowEx.VENDOR.isSome →
       (processRow initState compRowEx).vendors =
         setAdd initState.vendors (compRowEx.VENDOR.getD "")) ∧
     (compRowEx.PURCHASE_ORDER.isSome →
       (processRow initState compRowEx).po_numbers =
         setAdd initState.po_numbers (compRowEx.PURCHASE_ORDER.getD ""))) :=
  ⟨⟨rfl, by decide⟩, C6_orphan_component_rows.1 initState compRowEx rfl (by decide)⟩

/-- C8: absent numeric quantity fields are coerced to 0 before any arithmetic:
the component record's committed/onhand/issued quantities are the `or 0`
defaults and its shortage is computed from them, and the PO tally treats
absent ordered/received quantities exactly as 0. -/
theorem C8_absent_quantities_default :
    (∀ r : Row,
      (mkComponentRecord r).qty_committed = r.QTY_COMMITTED.getD 0 ∧
      (mkComponentRecord r).qty_onhand = r.QTY_ONHAND.getD 0 ∧
      (mkComponentRecord r).qty_issued = r.QTY_ISSUED.getD 0 ∧
      (mkComponentRecord r).shortage =
        shortage (r.QTY_COMMITTED.getD 0) (r.QTY_ONHAND.getD 0)) ∧
    (∀ r : Row, r.QTY_COMMITTED = none → r.QTY_ONHAND = none → r.QTY_ISSUED = none →
      (mkComponentRecord r).qty_committed = 0 ∧
      (mkComponentRecord r).qty_onhand = 0 ∧
      (mkComponentRecord r).qty_issued = 0 ∧
      (mkComponentRecord r).shortage = 0) ∧
    (∀ (s : POStats) (c : ComponentRecord),
      c.qty_ordered = none → c.qty_received = none →
      poAnalyzeComp s c =
        poAnalyzeComp s { c with qty_ordered := some 0, qty_received := some 0 }) := by
  refine ⟨fun r => ⟨rfl, rfl, rfl, rfl⟩, ?_, ?_⟩
  · intro r h1 h2 h3
    simp [mkComponentRecord, h1, h2, h3, shortage]
  · intro s c h1 h2
    simp [poAnalyzeComp, h1, h2]

/-- Witness for C8 at a fully-empty row and at the concrete record
`compRecEx` whose ordered/received quantities are absent. -/
theorem C8_absent_quantities_default_witness :
    (({} : Row).QTY_COMMITTED = none ∧ ({} : Row).QTY_ONHAND = none ∧
      ({} : Row).QTY_ISSUED = none ∧
      compRecEx.qty_ordered = none ∧ compRecEx.qty_received = none) ∧
    ((mkComponentRecord {}).qty_committed = 0 ∧
     (mkComponentRecord {}).qty_onhand = 0 ∧
     (mkComponentRecord {}).qty_issued = 0 ∧
     (mkComponentRecord {}).shortage = 0) ∧
    poAnalyzeComp {} compRecEx =
      poAnalyzeComp {} { compRecEx with qty_ordered := some 0, qty_received := some 0 } :=
  ⟨⟨rfl, rfl, rfl, rfl, rfl⟩,
   C8_absent_quantities_default.2.1 {} rfl rfl rfl,
   C8_absent_quantities_default.2.2 {} compRecEx rfl rfl⟩

theorem poAnalyzeComp_total_components_stock (s : POStats) (c : ComponentRecord) :
    (poAnalyzeComp s c).total_components_stock = s.total_components_stock := by
  simp only [poAnalyzeComp]
  split_ifs <;> rfl

theorem foldl_poAnalyzeComp_stock (l : List ComponentRecord) :
    ∀ s : POStats,
      (l.foldl poAnalyzeComp s).total_components_stock = s.total_components_stock := by
  induction l with
  | nil => intro s; rfl
  | cons c cs ih =>
      intro s
      rw [List.foldl_cons, ih, poAnalyzeComp_total_components_stock]

theorem poAnalyze_fold_stock (jc : List (String × List ComponentRecord)) :
    ∀ s : POStats,
      (jc.foldl (fun s p => p.2.foldl poAnalyzeComp s) s).total_components_stock =
        s.total_components_stock := by
  induction jc with
  | nil => intro s; rfl
  | cons p ps ih =>
      intro s
      rw [List.foldl_cons, ih, foldl_poAnalyzeComp_stock]

theorem stockAnalyzeComp_sum (s : StockStats) (c : ComponentRecord) :
    (stockAnalyzeComp s c).stock_sufficient + (stockAnalyzeComp s c).stock_shortage =
      s.stock_sufficient + s.stock_shortage + (if c.has_po then 0 else 1) := by
  unfold stockAnalyzeComp
  split_ifs <;> simp <;> omega

theorem foldl_stockAnalyzeComp_sum (l : List ComponentRecord) :
    ∀ s : StockStats,
      (l.foldl stockAnalyzeComp s).stock_sufficient +
        (l.foldl stockAnalyzeComp s).stock_shortage =
      s.stock_sufficient + s.stock_shortage + countStockOf l := by
  induction l with
  | nil => intro s; simp [countStockOf]
  | cons c cs ih =>
      intro s
      rw [List.foldl_cons, ih, stockAnalyzeComp_sum]
      by_cases h : c.has_po <;> (simp [countStockOf, List.filter, h]; try omega)

theorem stockAnalyze_fold_sum (jc : List (String × List ComponentRecord)) :
    ∀ s : StockStats,
      (jc.foldl (fun s p => p.2.foldl stockAnalyzeComp s) s).stock_sufficient +
        (jc.foldl (fun s p => p.2.foldl stockAnalyzeComp s) s).stock_shortage =
      s.stock_sufficient + s.stock_shortage + countStock jc := by
  induction jc with
  | nil => intro s; simp [countStock]
  | cons p ps ih =>
      intro s
      rw [List.foldl_cons, ih, foldl_stockAnalyzeComp_sum]
      simp [countStock]
      omega

/-- C9: after the PO-analysis pass, the counter of components without a
purchase order is 0 for every input (its branch adds 0), while the stock
loop's sufficient/short counters together count exactly the no-PO records. -/
theorem C9_total_components_stock_always_zero (rows : List Row)
    (jc : List (String × List ComponentRecord)) :
    (poAnalyze (runPass rows).job_components).total_components_stock = 0 ∧
    (poAnalyze jc).total_components_stock = 0 ∧
    (stockAnalyze jc).stock_sufficient + (stockAnalyze jc).stock_shortage =
      countStock jc := by
  refine ⟨poAnalyze_fold_stock _ {}, poAnalyze_fold_stock jc {}, ?_⟩
  have h := stockAnalyze_fold_sum jc {}
  simpa [stockAnalyze] using h

/-- C10: a Header row leaves current_job unchanged, so a component row
arriving after a new header but before that header's first Job row is still
appended to the previous job's component list. -/
theorem C10_header_preserves_current_job (st : AnalyzerState) (r r2 : Row) (j : String)
    (hH : classify r = RowClass.Header) (hC : classify r2 = RowClass.Component)
    (hj : st.current_job = some j) :
    (processRow st r).current_job = some j ∧
    (processRow (processRow st r) r2).job_components =
      jcAppend (processRow st r).job_components j (mkComponentRecord r2) := by
  have h1 : (processRow st r).current_job = some j := by
    rw [processRow_current_job, hH]
    simpa using hj
  refine ⟨h1, ?_⟩
  rw [processRow_job_components, if_pos hC, h1]

/-- Witness for C10: concrete header then component row over a state whose
current job is "J100". -/
theorem C10_header_preserves_current_job_witness :
    (classify headerRowEx = RowClass.Header ∧ classify compRowEx = RowClass.Component ∧
     stateWithJobEx.current_job = some "J100") ∧
    ((processRow stateWithJobEx headerRowEx).current_job = some "J100" ∧
     (processRow (processRow stateWithJobEx headerRowEx) compRowEx).job_components =
       jcAppend (processRow stateWithJobEx headerRowEx).job_components "J100"
         (mkComponentRecord compRowEx)) :=
  ⟨⟨by decide, by decide, rfl⟩,
   C10_header_preserves_current_job stateWithJobEx headerRowEx compRowEx "J100"
     (by decide) (by decide) rfl⟩
